import Mathlib

/-!
Shallow embedding of the govc connection-bootstrap and session-lifecycle
subsystem (package `flags`, file `client.go`, and the `datastore.ls`
command) of the RotatingFans/govmomi repository, together with proofs of
the specification claims about it.

External effects (filesystem, TLS, the remote SOAP service) are modelled
as explicit oracle records passed to the embedded functions; the
functions additionally return a trace of the external calls they make, so
claims about which calls happen (and in which flow) are statable.
-/

/-! ## URL model (the slice of Go net/url used by client.go)

Userinfo mirrors net/url.Userinfo: a username plus an optional password
(passwordSet is modelled by `Option`).  `URL.user` is an `Option` because
Go stores a nullable pointer. -/

structure Userinfo where
  username : String
  password : Option String
deriving DecidableEq, Repr

structure URL where
  scheme : String
  user : Option Userinfo
  host : String
  path : String
  rawQuery : String
  fragment : String
deriving DecidableEq, Repr

/-- Go (*url.Userinfo).Username() on a possibly-nil pointer: nil yields "". -/
def userinfoUsername : Option Userinfo → String
  | none => ""
  | some ui => ui.username

/-- Go (*url.Userinfo).Password() on a possibly-nil pointer: the pair
(password, ok) is modelled as an `Option`. -/
def userinfoPassword : Option Userinfo → Option String
  | none => none
  | some ui => ui.password

/-- Go url.Userinfo.String(): username, then ":
password" when the password is set.  (URL escaping is not modelled; the
claims only involve component strings free of reserved characters.) -/
def Userinfo.render (ui : Userinfo) : String :=
  match ui.password with
  | some p => ui.username ++ ":" ++ p
  | none => ui.username

/-- Test of Go `path[0] == '/'` (guarded by path being nonempty). -/
def headIsSlash (s : String) : Bool :=
  match s.data with
  | [] => false
  | c :: _ => c = '/'

/-- Go url.URL.String() for non-opaque URLs, as in the Go version this
repository builds against: `scheme:` when the scheme is nonempty, `//`
when scheme or host is nonempty or a user is present, `user@`, the host,
a `/` inserted when the path is nonempty, its first character is not `/`
and the host is nonempty, the path, `?query` when nonempty, `#fragment`
when nonempty. -/
def URL.render (u : URL) : String :=
  (if u.scheme ≠ "" then u.scheme ++ ":" else "")
    ++ (if u.scheme ≠ "" ∨ u.host ≠ "" ∨ u.user.isSome then "//" else "")
    ++ (match u.user with
        | some ui => ui.render ++ "@"
        | none => "")
    ++ (if u.host ≠ "" then u.host else "")
    ++ (if u.path ≠ "" ∧ headIsSlash u.path = false ∧ u.host ≠ "" then "/" else "")
    ++ u.path
    ++ (if u.rawQuery ≠ "" then "?" ++ u.rawQuery else "")
    ++ (if u.fragment ≠ "" then "#" ++ u.fragment else "")

/-! ## ClientFlag configuration

Resolved configuration of `ClientFlag` after flag/environment resolution:
the fields of the Go struct that the embedded functions read.  `Process`
(below) guarantees the URL is present, so functions running after it take
`url : URL` directly; `Process` itself takes the nullable URL. -/

structure ClientFlag where
  url : URL
  username : String
  password : String
  cert : String
  key : String
  insecure : Bool
  persist : Bool
  minAPIVersion : String
deriving DecidableEq, Repr

/-! ## ClientFlag.Process: explicit credential overrides

Direct translation of the body of `ClientFlag.Process` (the part after
the DebugFlag step): fail when no URL was given, then override the
username if an explicit one is set (preserving an embedded password when
one is present), then override the password if an explicit one is set
(preserving the current username). -/

def Process (flagURL : Option URL) (username password : String) :
    Except String URL :=
  match flagURL with
  | none => .error "specify an ESX or vCenter URL"
  | some u0 =>
    let u1 :=
      if username ≠ "" then
        match userinfoPassword u0.user with
        | some p => { u0 with user := some ⟨username, some p⟩ }
        | none => { u0 with user := some ⟨username, none⟩ }
      else u0
    let u2 :=
      if password ≠ "" then
        { u1 with user := some ⟨userinfoUsername u1.user, some password⟩ }
      else u1
    .ok u2

/-- Modelled from the spec: the same two overrides applied in the
opposite order (password first, then username), used only to state the
spec's order-independence claim against `Process`. -/
def ProcessSwapped (flagURL : Option URL) (username password : String) :
    Except String URL :=
  match flagURL with
  | none => .error "specify an ESX or vCenter URL"
  | some u0 =>
    let u1 :=
      if password ≠ "" then
        { u0 with user := some ⟨userinfoUsername u0.user, some password⟩ }
      else u0
    let u2 :=
      if username ≠ "" then
        match userinfoPassword u1.user with
        | some p => { u1 with user := some ⟨username, some p⟩ }
        | none => { u1 with user := some ⟨username, none⟩ }
      else u1
    .ok u2

/-! ## ClientFlag.Register: environment-variable parsing

ASCII lowering, standing for Go strings.ToLower (all recognized tokens
are ASCII). -/

def lowerChar (c : Char) : Char :=
  if 'A' ≤ c ∧ c ≤ 'Z' then Char.ofNat (c.toNat + 32) else c

def lowerString (s : String) : String :=
  String.mk (s.data.map lowerChar)

/-- Translation of the GOVC_INSECURE block of `Register`: the lowered
value "1" or "true" yields true, anything else (the unset value ""
included) keeps the default false. -/
def parseInsecureEnv (env : String) : Bool :=
  let e := lowerString env
  if e = "1" ∨ e = "true" then true else false

/-- Translation of the GOVC_PERSIST_SESSION block of `Register`: the
lowered value "0" or "false" yields false, anything else (the unset
value "" included) keeps the default true. -/
def parsePersistEnv (env : String) : Bool :=
  let e := lowerString env
  if e = "0" ∨ e = "false" then false else true

/-- Translation of the GOVC_MIN_API_VERSION block of `Register`: unset
(empty) defaults to "5.5". -/
def resolveMinAPIVersion (env : String) : String :=
  if env = "" then "5.5" else env

example : parseInsecureEnv "TRUE" = true := by decide
example : parseInsecureEnv "" = false := by decide
example : parsePersistEnv "" = true := by decide
example : parsePersistEnv "0" = false := by decide
example : parsePersistEnv "yes" = true := by decide
example : resolveMinAPIVersion "" = "5.5" := by rfl

/-! ## SHA-1 (crypto/sha1), over byte lists with Nat arithmetic mod 2^32 -/

def rotl32 (n x : Nat) : Nat :=
  ((x <<< n) ||| (x >>> (32 - n))) % 4294967296

def not32 (x : Nat) : Nat := x ^^^ 4294967295

def be64 (n : Nat) : List Nat :=
  [n >>> 56 % 256, n >>> 48 % 256, n >>> 40 % 256, n >>> 32 % 256,
   n >>> 24 % 256, n >>> 16 % 256, n >>> 8 % 256, n % 256]

def be32 (n : Nat) : List Nat :=
  [n >>> 24 % 256, n >>> 16 % 256, n >>> 8 % 256, n % 256]

/-- Standard SHA-1 padding: a 0x80 byte, zeros to 56 mod 64, then the
bit length as a 64-bit big-endian integer. -/
def sha1Pad (msg : List Nat) : List Nat :=
  let len := msg.length
  let k := (119 - len % 64) % 64
  msg ++ [128] ++ List.replicate k 0 ++ be64 (8 * len)

def word32At (b : List Nat) (i : Nat) : Nat :=
  (b.getD (4 * i) 0) <<< 24 ||| (b.getD (4 * i + 1) 0) <<< 16 |||
    (b.getD (4 * i + 2) 0) <<< 8 ||| (b.getD (4 * i + 3) 0)

def sha1Schedule (block : List Nat) : List Nat :=
  let w16 := (List.range 16).map (word32At block)
  (List.range 64).foldl
    (fun w i =>
      let t := i + 16
      w ++ [rotl32 1 (w.getD (t - 3) 0 ^^^ w.getD (t - 8) 0 ^^^
        w.getD (t - 14) 0 ^^^ w.getD (t - 16) 0)])
    w16

def sha1F (t b c d : Nat) : Nat :=
  if t < 20 then (b &&& c) ||| (not32 b &&& d)
  else if t < 40 then b ^^^ c ^^^ d
  else if t < 60 then (b &&& c) ||| (b &&& d) ||| (c &&& d)
  else b ^^^ c ^^^ d

def sha1K (t : Nat) : Nat :=
  if t < 20 then 1518500249
  else if t < 40 then 1859775393
  else if t < 60 then 2400959708
  else 3395469782

def sha1Compress (h : Nat × Nat × Nat × Nat × Nat) (block : List Nat) :
    Nat × Nat × Nat × Nat × Nat :=
  let w := sha1Schedule block
  let (h0, h1, h2, h3, h4) := h
  let st := (List.range 80).foldl
    (fun st t =>
      let (a, b, c, d, e) := st
      let temp := (rotl32 5 a + sha1F t b c d + e + sha1K t + w.getD t 0) % 4294967296
      (temp, a, rotl32 30 b, c, d))
    (h0, h1, h2, h3, h4)
  let (a, b, c, d, e) := st
  ((h0 + a) % 4294967296, (h1 + b) % 4294967296, (h2 + c) % 4294967296,
    (h3 + d) % 4294967296, (h4 + e) % 4294967296)

/-- Fuel-indexed block loop; the fuel (one unit per byte) dominates the
number of 64-byte blocks, so the fuel never runs out on a padded
message.  Structural recursion keeps the definition kernel-reducible. -/
def sha1BlocksFuel : Nat → List Nat → Nat × Nat × Nat × Nat × Nat →
    Nat × Nat × Nat × Nat × Nat
  | 0, _, h => h
  | fuel + 1, bytes, h =>
    if bytes.length < 64 then h
    else sha1BlocksFuel fuel (bytes.drop 64) (sha1Compress h (bytes.take 64))

def sha1Blocks (bytes : List Nat) (h : Nat × Nat × Nat × Nat × Nat) :
    Nat × Nat × Nat × Nat × Nat :=
  sha1BlocksFuel bytes.length bytes h

/-- SHA-1 digest of a byte list, as 20 bytes. -/
def sha1Digest (msg : List Nat) : List Nat :=
  let (h0, h1, h2, h3, h4) :=
    sha1Blocks (sha1Pad msg) (1732584193, 4023233417, 2562383102, 271733878, 3285377520)
  be32 h0 ++ be32 h1 ++ be32 h2 ++ be32 h3 ++ be32 h4

def hexDigit (n : Nat) : Char :=
  if n < 10 then Char.ofNat (48 + n) else Char.ofNat (87 + n)

/-- Lowercase hex rendering of a byte list; on a 20-byte digest this is
exactly Go fmt.Sprintf with the %040x verb. -/
def hexOfBytes (bs : List Nat) : String :=
  String.mk (bs.foldr (fun b acc => hexDigit (b / 16) :: hexDigit (b % 16) :: acc) [])

/-- Byte sequence of a string.  The session keys hashed by client.go are
ASCII, where the UTF-8 bytes Go hashes coincide with the code points. -/
def strBytes (s : String) : List Nat := s.data.map Char.toNat

set_option maxRecDepth 10000 in
example :
    hexOfBytes (sha1Digest (strBytes "abc")) =
      "a9993e364706816aba3e25717850c26c9cd0d89d" := by decide

/-! ## ClientFlag.URLWithoutPassword and ClientFlag.sessionFile -/

/-- Translation of `ClientFlag.URLWithoutPassword` (on a present URL):
copy the URL and replace its user by a password-free user carrying the
same username.  Go url.User always yields a non-nil Userinfo, so the
result always has `some` user, even when the original had none. -/
def URLWithoutPassword (u : URL) : URL :=
  { u with user := some ⟨userinfoUsername u.user, none⟩ }

/-- Hash input of `ClientFlag.sessionFile`: the Go format string
interpolates the credential-stripped URL and the insecure flag, with %t
rendering Bool as "true"/"false". -/
def sessionKey (u : URL) (insecure : Bool) : String :=
  (URLWithoutPassword u).render ++ "#insecure=" ++
    (if insecure then "true" else "false")

/-- File name component of `ClientFlag.sessionFile`: %040x of the SHA-1
sum of the key. -/
def sessionFileName (u : URL) (insecure : Bool) : String :=
  hexOfBytes (sha1Digest (strBytes (sessionKey u insecure)))

/-- Translation of `ClientFlag.sessionFile`: filepath.Join of $HOME,
".govmomi", "sessions" and the hashed name (modelled as a plain
"/"-separated join, which agrees with Go for a clean, nonempty home
directory). -/
def sessionFile (home : String) (flag : ClientFlag) : String :=
  home ++ "/.govmomi/sessions/" ++ sessionFileName flag.url flag.insecure

/-! ## Session cache: saveClient, restoreClient, loadClient

The filesystem and the remote SOAP service are modelled as oracle
records; vim25.Client is abstracted to the two observations client.go
makes of it (its Valid() bit and its advertised API version). -/

structure VimClient where
  valid : Bool
  apiVersion : String
deriving DecidableEq, Repr

/-- Outcome of os.Open / os.OpenFile as client.go distinguishes them:
an error satisfying os.IsNotExist, any other error, or success. -/
inductive OpenResult
  | notExist
  | failure (e : String)
  | opened
deriving DecidableEq, Repr

/-- Remote error as loadClient distinguishes it: a SOAP fault (with the
bit recording whether the inner fault is types.ManagedObjectNotFound),
or a non-fault transport error. -/
inductive SoapErr
  | soapFault (managedObjectNotFound : Bool)
  | transportErr (e : String)
deriving DecidableEq, Repr

structure UserSession where
  key : String
deriving DecidableEq, Repr

structure RestoreEnv where
  openResult : OpenResult
  decodeResult : Except String VimClient
  userSession : Except SoapErr (Option UserSession)
deriving Repr

/-- Filesystem outcomes of the three steps of saveClient. -/
structure FsEnv where
  mkdirAll : Except String Unit
  openFile : Except String Unit
  encode : Except String Unit
deriving Repr

/-- Translation of `ClientFlag.saveClient`: no-op success when the
persist flag is off; otherwise MkdirAll, OpenFile and JSON-encode in
order, returning the first error. -/
def saveClient (flag : ClientFlag) (fs : FsEnv) : Except String Unit :=
  if ¬ flag.persist then .ok ()
  else
    match fs.mkdirAll with
    | .error e => .error e
    | .ok _ =>
      match fs.openFile with
      | .error e => .error e
      | .ok _ =>
        match fs.encode with
        | .error e => .error e
        | .ok _ => .ok ()

/-- Translation of `ClientFlag.restoreClient`; `(false, nil)` in Go is
`.ok none`, `(true, nil)` with the decoded client is `.ok (some c)`,
and `(false, err)` is `.error err`. -/
def restoreClient (flag : ClientFlag) (env : RestoreEnv) :
    Except String (Option VimClient) :=
  if ¬ flag.persist then .ok none
  else
    match env.openResult with
    | .notExist => .ok none
    | .failure e => .error e
    | .opened =>
      match env.decodeResult with
      | .error e => .error e
      | .ok c => .ok (some c)

inductive LoadErr
  | cacheErr (e : String)
  | sessionErr (e : SoapErr)
deriving DecidableEq, Repr

/-- Translation of `ClientFlag.loadClient`.  The second component
records whether the remote user-session query was issued (the only
remote call the function makes). -/
def loadClient (flag : ClientFlag) (env : RestoreEnv) :
    Except LoadErr (Option VimClient) × Bool :=
  match restoreClient flag env with
  | .error e => (.error (.cacheErr e), false)
  | .ok none => (.ok none, false)
  | .ok (some c) =>
    if ¬ c.valid then (.ok none, false)
    else
      match env.userSession with
      | .error e =>
        match e with
        | .soapFault monf =>
          if monf then (.ok none, true) else (.error (.sessionErr e), true)
        | .transportErr s => (.error (.sessionErr (.transportErr s)), true)
      | .ok none => (.ok none, true)
      | .ok (some _) => (.ok (some c), true)

/-! ## Fresh login: newClient and localTicket -/

structure Ticket where
  userName : String
  passwordFilePath : String
deriving DecidableEq, Repr

/-- External calls newClient can make, in the order they occur. -/
inductive AuthEvent
  | loadCertificate (cert key : String)
  | newVimClient
  | acquireLocalTicket (osUser : String)
  | readPasswordFile (path : String)
  | loginExtensionByCertificate (username : String)
  | loginByPassword (user : Option Userinfo)
  | saveSession
deriving DecidableEq, Repr

structure AuthEnv where
  loadKeyPair : Except String Unit
  newVimClient : Except String VimClient
  acquireTicket : Except String Ticket
  readFile : String → Except String String
  loginExtension : String → Except String Unit
  login : Option Userinfo → Except String Unit
  osUser : String
  fs : FsEnv

/-- Translation of `ClientFlag.localTicket`: AcquireLocalTicket for the
OS user, then read the one-time password from the ticket's file path,
yielding url.UserPassword(ticket.UserName, password). -/
def localTicket (env : AuthEnv) : Except String Userinfo × List AuthEvent :=
  match env.acquireTicket with
  | .error e => (.error e, [.acquireLocalTicket env.osUser])
  | .ok ticket =>
    match env.readFile ticket.passwordFilePath with
    | .error e =>
      (.error e,
        [.acquireLocalTicket env.osUser, .readPasswordFile ticket.passwordFilePath])
    | .ok password =>
      (.ok ⟨ticket.userName, some password⟩,
        [.acquireLocalTicket env.osUser, .readPasswordFile ticket.passwordFilePath])

/-- Final step of newClient: flag.saveClient(c); a save error is
returned instead of the client. -/
def newClientSave (flag : ClientFlag) (env : AuthEnv) (c : VimClient)
    (tr : List AuthEvent) : Except String VimClient × List AuthEvent :=
  match saveClient flag env.fs with
  | .error e => (.error e, tr ++ [.saveSession])
  | .ok _ => (.ok c, tr ++ [.saveSession])

/-- Login step of newClient: LoginExtensionByCertificate(u.Username(),
"") when tunneled, Login(u) otherwise, then the save step. -/
def newClientLogin (flag : ClientFlag) (env : AuthEnv) (c : VimClient)
    (isTunnel : Bool) (u : Option Userinfo) (tr : List AuthEvent) :
    Except String VimClient × List AuthEvent :=
  if isTunnel then
    match env.loginExtension (userinfoUsername u) with
    | .error e => (.error e, tr ++ [.loginExtensionByCertificate (userinfoUsername u)])
    | .ok _ =>
      newClientSave flag env c (tr ++ [.loginExtensionByCertificate (userinfoUsername u)])
  else
    match env.login u with
    | .error e => (.error e, tr ++ [.loginByPassword u])
    | .ok _ => newClientSave flag env c (tr ++ [.loginByPassword u])

/-- Translation of `ClientFlag.newClient`: load the certificate pair
when a certificate is configured (setting isTunnel), build the vim25
client over the retry-wrapped transport, acquire a local ticket exactly
when the URL carries no username, then run the login step and the
save step. -/
def newClient (flag : ClientFlag) (env : AuthEnv) :
    Except String VimClient × List AuthEvent :=
  let isTunnel := flag.cert != ""
  let (certRes, tr0) :=
    if flag.cert != "" then
      (env.loadKeyPair, [AuthEvent.loadCertificate flag.cert flag.key])
    else (.ok (), [])
  match certRes with
  | .error e => (.error e, tr0)
  | .ok _ =>
    match env.newVimClient with
    | .error e => (.error e, tr0 ++ [.newVimClient])
    | .ok c =>
      if userinfoUsername flag.url.user = "" then
        match localTicket env with
        | (.error e, tr2) => (.error e, tr0 ++ [.newVimClient] ++ tr2)
        | (.ok ui, tr2) =>
          newClientLogin flag env c isTunnel (some ui) (tr0 ++ [.newVimClient] ++ tr2)
      else
        newClientLogin flag env c isTunnel flag.url.user (tr0 ++ [.newVimClient])

/-! ## Retry policy

Modelled from the spec: `attachRetries` wraps the transport in
vim25.Retry with the vim25.TemporaryNetworkError(3) predicate, whose
implementation is outside the provided sources.  Per the spec the
wrapper makes at most 3 attempts per logical call (1 initial + 2
retries), retries only transient temporary-network errors, never
structured remote faults, and surfaces the last error unchanged when
the budget is exhausted. -/

inductive RTResult (α : Type)
  | ok (r : α)
  | transientErr (e : String)
  | remoteFault (e : String)
deriving DecidableEq, Repr

/-- Modelled from the spec: one logical call through the transport
returned by `attachRetries`, with the fixed budget of 3 attempts
unrolled.  The transport maps the 1-based attempt number to that
attempt's outcome; the second component is the number of attempts
made.  Only a transient error triggers the next attempt; attempt 3's
outcome is final whatever it is. -/
def retryCall (transport : Nat → RTResult α) : RTResult α × Nat :=
  match transport 1 with
  | .transientErr _ =>
    match transport 2 with
    | .transientErr _ => (transport 3, 3)
    | r => (r, 2)
  | r => (r, 1)

/-! ## Version gate: apiVersionValid

ParseVersion and Version.Lte live in a file of this repository outside
the provided sources; they are modelled from the spec: a version string
is parsed into a comparable ordered value (a dot-separated list of
numeric components, failing when a component is empty or non-numeric),
and Lte is the lexicographic order in which a strict prefix is smaller. -/

def digitVal (c : Char) : Option Nat :=
  if '0' ≤ c ∧ c ≤ '9' then some (c.toNat - 48) else none

def parseVersionComponent (s : List Char) : Option Nat :=
  match s with
  | [] => none
  | _ =>
    s.foldl
      (fun acc c =>
        match acc, digitVal c with
        | some n, some d => some (10 * n + d)
        | _, _ => none)
      (some 0)

def splitDots : List Char → List (List Char)
  | [] => [[]]
  | c :: rest =>
    let r := splitDots rest
    if c = '.' then [] :: r
    else
      match r with
      | h :: t => (c :: h) :: t
      | [] => [[c]]

/-- Modelled from the spec: ParseVersion turns a dotted numeric version
string into an ordered value, failing when it does not parse. -/
def ParseVersion (s : String) : Except String (List Nat) :=
  match (splitDots s.data).mapM parseVersionComponent with
  | some v => .ok v
  | none => .error ("invalid version: " ++ s)

/-- Modelled from the spec: the version order used by the gate; succeeds
iff the left version is less than or equal to the right one. -/
def versionLte : List Nat → List Nat → Bool
  | [], _ => true
  | _ :: _, [] => false
  | a :: as, b :: bs =>
    if a < b then true else if a > b then false else versionLte as bs

/-- Error text of the version gate, naming the minimum version, the
remote version, and the GOVC_MIN_API_VERSION override variable. -/
def apiVersionErrMsg (minVersionString apiVersion : String) : String :=
  "Require API version " ++ minVersionString ++ ", connected to API version "
    ++ apiVersion ++ " (set GOVC_MIN_API_VERSION to override)"

/-- Go strings.HasSuffix(apiVersion, ".x"). -/
def endsWithDotX (s : String) : Bool :=
  match s.data.reverse with
  | 'x' :: '.' :: _ => true
  | _ => false

/-- Translation of `apiVersionValid` (the client is abstracted to its
advertised ServiceContent.About.ApiVersion string). -/
def apiVersionValid (apiVersion minVersionString : String) :
    Except String Unit :=
  if minVersionString = "-" then .ok ()
  else if endsWithDotX apiVersion then .ok ()
  else
    match ParseVersion apiVersion with
    | .error e => .error e
    | .ok realVersion =>
      match ParseVersion minVersionString with
      | .error e => .error e
      | .ok minVersion =>
        if ¬ versionLte minVersion realVersion then
          .error (apiVersionErrMsg minVersionString apiVersion)
        else .ok ()

/-! ## datastore.ls: the per-argument listing loop of ls.Run -/

structure SearchResults where
  folderPath : String
  file : List String
deriving DecidableEq, Repr

/-- Listing error as ls.Run distinguishes it: types.IsFileNotFound or
anything else. -/
inductive ListPathErr
  | fileNotFound
  | otherErr (e : String)
deriving DecidableEq, Repr

inductive LsErr
  | forwarded (e : ListPathErr)
  | emptyPatternResult (folderPath pat : String)
deriving DecidableEq, Repr

/-- Message of LsErr.emptyPatternResult, as formatted by ls.Run. -/
def lsNotFoundMsg (folderPath pat : String) : String :=
  "File " ++ folderPath ++ "/" ++ pat ++ " was not found"

/-- Translation of the `for i := 0; ; i++` loop of `ls.Run` for one
argument.  `listPath` is the ListPath oracle (directory argument and
match pattern to outcome); `base` and `dir` stand for Go path.Base and
path.Dir, which are external to the repository and thus kept abstract.
The trace records the (argument, pattern) pairs passed to ListPath.
Attempt 0 lists the argument with pattern "*"; only on a file-not-found
error at attempt 0 is the argument re-interpreted as a pattern (base
name as pattern, parent as directory); at attempt 1 an error is
returned as-is and an empty result set becomes the not-found error. -/
def lsRunArg (listPath : String → String → Except ListPathErr SearchResults)
    (base dir : String → String) (arg : String) :
    Except LsErr SearchResults × List (String × String) :=
  match listPath arg "*" with
  | .ok r => (.ok r, [(arg, "*")])
  | .error e =>
    match e with
    | .fileNotFound =>
      let pat := base arg
      let arg1 := dir arg
      match listPath arg1 pat with
      | .ok r =>
        if r.file.length = 0 then
          (.error (.emptyPatternResult r.folderPath pat), [(arg, "*"), (arg1, pat)])
        else (.ok r, [(arg, "*"), (arg1, pat)])
      | .error e1 => (.error (.forwarded e1), [(arg, "*"), (arg1, pat)])
    | .otherErr s => (.error (.forwarded (.otherErr s)), [(arg, "*")])

/-! ## Trace observations used by the claims -/

/-- Login calls among the authentication events. -/
def isLoginEvent : AuthEvent → Bool
  | .loginExtensionByCertificate _ => true
  | .loginByPassword _ => true
  | _ => false

def countLoginEvents (tr : List AuthEvent) : Nat :=
  (tr.filter isLoginEvent).length

/-! ## Concrete configurations used by counterexamples and witnesses -/

def baseFlag : ClientFlag :=
  { url := ⟨"https", some ⟨"u", some "pw"⟩, "vc.example.com", "/sdk", "", ""⟩,
    username := "", password := "", cert := "", key := "",
    insecure := false, persist := true, minAPIVersion := "5.5" }

/-- Pair of configurations differing only in the URL query. -/
def flagQ1 : ClientFlag := baseFlag
def flagQ2 : ClientFlag :=
  { baseFlag with url := { baseFlag.url with rawQuery := "b=2" } }

/-- Pair of configurations differing only in the URL username. -/
def flagU1 : ClientFlag :=
  { baseFlag with url := { baseFlag.url with user := some ⟨"alice", some "pw"⟩ } }
def flagU2 : ClientFlag :=
  { baseFlag with url := { baseFlag.url with user := some ⟨"bob", some "pw"⟩ } }

/-- Pair of configurations differing only in the host. -/
def flagH1 : ClientFlag :=
  { baseFlag with url := { baseFlag.url with host := "a.example.com" } }
def flagH2 : ClientFlag :=
  { baseFlag with url := { baseFlag.url with host := "b.example.com" } }

/-- Pair of configurations differing only in the insecure flag. -/
def flagI1 : ClientFlag := baseFlag
def flagI2 : ClientFlag := { baseFlag with insecure := true }

/-- Pair of configurations differing only in the URL fragment. -/
def flagF1 : ClientFlag := baseFlag
def flagF2 : ClientFlag :=
  { baseFlag with url := { baseFlag.url with fragment := "ref" } }

/-- Configuration with a certificate and a username-free URL. -/
def flagCertNoUser : ClientFlag :=
  { baseFlag with
    url := { baseFlag.url with user := none },
    cert := "cert.pem", key := "key.pem", persist := false }

/-- Oracle environment in which every external call succeeds. -/
def allOkAuthEnv : AuthEnv :=
  { loadKeyPair := .ok ()
    newVimClient := .ok ⟨true, "6.0"⟩
    acquireTicket := .ok ⟨"root", "/var/ticket/pw"⟩
    readFile := fun _ => .ok "onetimepw"
    loginExtension := fun _ => .ok ()
    login := fun _ => .ok ()
    osUser := "root"
    fs := { mkdirAll := .ok (), openFile := .ok (), encode := .ok () } }

/-! # Theorems for the claims -/

/-- C7 counterexample: the persist-session flag does not follow the
claimed "recognized true tokens are 1/true" rule.  The code recognizes
the false tokens "0"/"false": the value "0" parses to false although it
is not a true token (under the claim the unrecognized value would keep
the default true), and the non-true token "yes" parses to true. -/
theorem parsePersistEnv_not_true_token_rule :
    parsePersistEnv "0" = false ∧ parsePersistEnv "yes" = true := by
  constructor <;> rfl

/-- C7 (amended): the insecure flag parses case-insensitively with true
tokens "1"/"true" and default false; the persist-session flag parses
case-insensitively with FALSE tokens "0"/"false" and default true (every
other value, recognized or not, yields true); the minimum API version
defaults to "5.5" when its variable is unset. -/
theorem register_env_parsing_characterization :
    (∀ s, parseInsecureEnv s = true ↔
      (lowerString s = "1" ∨ lowerString s = "true")) ∧
    (∀ s, parsePersistEnv s = false ↔
      (lowerString s = "0" ∨ lowerString s = "false")) ∧
    parseInsecureEnv "" = false ∧ parsePersistEnv "" = true ∧
    resolveMinAPIVersion "" = "5.5" := by
  refine ⟨fun s => ?_, fun s => ?_, rfl, rfl, rfl⟩
  · simp only [parseInsecureEnv]
    split
    · next h => simp [h]
    · next h => simp [h]
  · simp only [parsePersistEnv]
    split
    · next h => simp [h]
    · next h => simp [h]

/-- C7 witness: the characterization applied at the concrete value
"TRUE". -/
theorem register_env_parsing_witness : parseInsecureEnv "TRUE" = true :=
  (register_env_parsing_characterization.1 "TRUE").mpr (by decide)

/-- C4: the version gate accepts the sentinel minimum "-" for every
remote version; accepts every development build ending in ".x"; when
both versions parse it accepts iff the minimum is ≤ the remote version
and otherwise fails with the message naming both versions and
GOVC_MIN_API_VERSION; a parse failure of either version is returned as
an error; and the three concrete checks of the claim hold. -/
theorem apiVersionValid_gate_spec :
    (∀ remote, apiVersionValid remote "-" = .ok ()) ∧
    (∀ remote minV, endsWithDotX remote = true →
      apiVersionValid remote minV = .ok ()) ∧
    (∀ remote minV rv mv, minV ≠ "-" → endsWithDotX remote = false →
      ParseVersion remote = .ok rv → ParseVersion minV = .ok mv →
      (apiVersionValid remote minV = .ok () ↔ versionLte mv rv = true) ∧
      (versionLte mv rv = false →
        apiVersionValid remote minV = .error (apiVersionErrMsg minV remote))) ∧
    (∀ remote minV e, minV ≠ "-" → endsWithDotX remote = false →
      ParseVersion remote = .error e → apiVersionValid remote minV = .error e) ∧
    (∀ remote minV e rv, minV ≠ "-" → endsWithDotX remote = false →
      ParseVersion remote = .ok rv → ParseVersion minV = .error e →
      apiVersionValid remote minV = .error e) ∧
    apiVersionValid "6.0" "5.5" = .ok () ∧
    apiVersionValid "5.0" "5.5" = .error (apiVersionErrMsg "5.5" "5.0") ∧
    apiVersionValid "6.1.x" "9.9" = .ok () := by
  refine ⟨?_, ?_, ?_, ?_, ?_, rfl, rfl, rfl⟩
  · intro remote
    simp [apiVersionValid]
  · intro remote minV h
    by_cases hm : minV = "-"
    · simp [apiVersionValid, hm]
    · simp [apiVersionValid, hm, h]
  · intro remote minV rv mv hm hx hr hmv
    cases hv : versionLte mv rv
    · constructor
      · simp [apiVersionValid, hm, hx, hr, hmv, hv]
      · intro _
        simp [apiVersionValid, hm, hx, hr, hmv, hv]
    · constructor
      · simp [apiVersionValid, hm, hx, hr, hmv, hv]
      · intro hcontra
        simp [hv] at hcontra
  · intro remote minV e hm hx hr
    simp [apiVersionValid, hm, hx, hr]
  · intro remote minV e rv hm hx hr hmv
    simp [apiVersionValid, hm, hx, hr, hmv]

/-- C4 witness: the parse-and-compare clause applied at remote "6.0",
minimum "5.5". -/
theorem apiVersionValid_gate_witness : apiVersionValid "6.0" "5.5" = .ok () :=
  (apiVersionValid_gate_spec.2.2.1 "6.0" "5.5" [6, 0] [5, 5]
    (by decide) (by decide) rfl rfl).1.mpr (by decide)

/-- C6: a logical call through the retry wrapper makes at most 3
attempts; transient failures on attempts 1 and 2 followed by success on
attempt 3 yield that success; transient failures on all 3 attempts yield
attempt 3's error unchanged; the outcome never depends on attempts past
the third (no 4th attempt); a remote fault or a success on attempt 1
returns immediately without retrying. -/
theorem retryCall_spec :
    (∀ (α : Type) (t : Nat → RTResult α), (retryCall t).2 ≤ 3) ∧
    (∀ (α : Type) (t : Nat → RTResult α) e1 e2 r,
      t 1 = .transientErr e1 → t 2 = .transientErr e2 → t 3 = .ok r →
      retryCall t = (.ok r, 3)) ∧
    (∀ (α : Type) (t : Nat → RTResult α) e1 e2 e3,
      t 1 = .transientErr e1 → t 2 = .transientErr e2 → t 3 = .transientErr e3 →
      retryCall t = (.transientErr e3, 3)) ∧
    (∀ (α : Type) (t tAlt : Nat → RTResult α),
      (∀ i, 1 ≤ i → i ≤ 3 → t i = tAlt i) → retryCall t = retryCall tAlt) ∧
    (∀ (α : Type) (t : Nat → RTResult α) e,
      t 1 = .remoteFault e → retryCall t = (.remoteFault e, 1)) ∧
    (∀ (α : Type) (t : Nat → RTResult α) r,
      t 1 = .ok r → retryCall t = (.ok r, 1)) := by
  refine ⟨?_, ?_, ?_, ?_, ?_, ?_⟩
  · intro α t
    rcases h1 : t 1 with r1 | e1 | f1 <;> rcases h2 : t 2 with r2 | e2 | f2 <;>
      simp [retryCall, h1, h2]
  · intro α t e1 e2 r h1 h2 h3
    simp [retryCall, h1, h2, h3]
  · intro α t e1 e2 e3 h1 h2 h3
    simp [retryCall, h1, h2, h3]
  · intro α t tAlt hagree
    have h1 := hagree 1 (by decide) (by decide)
    have h2 := hagree 2 (by decide) (by decide)
    have h3 := hagree 3 (by decide) (by decide)
    simp only [retryCall, h1, h2, h3]
  · intro α t e h1
    simp [retryCall, h1]
  · intro α t r h1
    simp [retryCall, h1]

/-- C6 witness: a transport transient-failing on attempts 1 and 2 and
succeeding on attempt 3, evaluated concretely. -/
theorem retryCall_witness :
    retryCall (fun i => if i ≤ 2 then RTResult.transientErr "reset" else .ok 42) =
      (.ok 42, 3) :=
  retryCall_spec.2.1 Nat
    (fun i => if i ≤ 2 then RTResult.transientErr "reset" else .ok 42)
    "reset" "reset" 42 rfl rfl rfl

/-- C9: in the datastore listing loop, a successful first listing is
returned whatever its contents (an empty directory is not an error); a
file-not-found error on the first attempt alone triggers the pattern
re-interpretation (base name as pattern, parent as directory); on the
pattern retry an empty result set becomes the "File ... was not found"
error, a nonempty one is returned, and an error of the retry (even
file-not-found) is forwarded without a further re-interpretation; at
most two ListPath calls are made. -/
theorem lsRunArg_pattern_retry_spec :
    (∀ (lp : String → String → Except ListPathErr SearchResults)
      (base dir : String → String) arg r, lp arg "*" = .ok r →
      lsRunArg lp base dir arg = (.ok r, [(arg, "*")])) ∧
    (∀ (lp : String → String → Except ListPathErr SearchResults)
      (base dir : String → String) arg r,
      lp arg "*" = .error .fileNotFound →
      lp (dir arg) (base arg) = .ok r → r.file = [] →
      lsRunArg lp base dir arg =
        (.error (.emptyPatternResult r.folderPath (base arg)),
          [(arg, "*"), (dir arg, base arg)])) ∧
    (∀ (lp : String → String → Except ListPathErr SearchResults)
      (base dir : String → String) arg r,
      lp arg "*" = .error .fileNotFound →
      lp (dir arg) (base arg) = .ok r → r.file ≠ [] →
      lsRunArg lp base dir arg = (.ok r, [(arg, "*"), (dir arg, base arg)])) ∧
    (∀ (lp : String → String → Except ListPathErr SearchResults)
      (base dir : String → String) arg e1,
      lp arg "*" = .error .fileNotFound →
      lp (dir arg) (base arg) = .error e1 →
      lsRunArg lp base dir arg =
        (.error (.forwarded e1), [(arg, "*"), (dir arg, base arg)])) ∧
    (∀ (lp : String → String → Except ListPathErr SearchResults)
      (base dir : String → String) arg s,
      lp arg "*" = .error (.otherErr s) →
      lsRunArg lp base dir arg = (.error (.forwarded (.otherErr s)), [(arg, "*")])) ∧
    (∀ (lp : String → String → Except ListPathErr SearchResults)
      (base dir : String → String) arg,
      ((lsRunArg lp base dir arg).2).length ≤ 2) := by
  refine ⟨?_, ?_, ?_, ?_, ?_, ?_⟩
  · intro lp base dir arg r h
    simp [lsRunArg, h]
  · intro lp base dir arg r h1 h2 h3
    simp [lsRunArg, h1, h2, h3]
  · intro lp base dir arg r h1 h2 h3
    simp [lsRunArg, h1, h2, h3, List.length_eq_zero]
  · intro lp base dir arg e1 h1 h2
    simp [lsRunArg, h1, h2]
  · intro lp base dir arg s h
    simp [lsRunArg, h]
  · intro lp base dir arg
    rcases h1 : lp arg "*" with e | r
    · rcases e with _ | s
      · rcases h2 : lp (dir arg) (base arg) with e1 | r
        · simp [lsRunArg, h1, h2]
        · by_cases h3 : r.file = [] <;> simp [lsRunArg, h1, h2, h3]
      · simp [lsRunArg, h1]
    · simp [lsRunArg, h1]

/-- C9 witness: a first listing that succeeds with an empty result set
is returned as a success, not an error. -/
theorem lsRunArg_witness :
    lsRunArg (fun _ _ => .ok ⟨"[ds] dir", []⟩) id id "dir" =
      (.ok ⟨"[ds] dir", []⟩, [("dir", "*")]) :=
  lsRunArg_pattern_retry_spec.1 (fun _ _ => .ok ⟨"[ds] dir", []⟩) id id "dir"
    ⟨"[ds] dir", []⟩ rfl

/-- C5: an explicit username alone replaces the URL's username and
preserves the embedded password; an explicit password alone replaces the
password and preserves the embedded username; both together replace
both; and applying the two overrides in the opposite order yields the
same result on every input. -/
theorem process_override_spec :
    (∀ u n, n ≠ "" →
      Process (some u) n "" =
        .ok { u with user := some ⟨n, userinfoPassword u.user⟩ }) ∧
    (∀ u p, p ≠ "" →
      Process (some u) "" p =
        .ok { u with user := some ⟨userinfoUsername u.user, some p⟩ }) ∧
    (∀ u n p, n ≠ "" → p ≠ "" →
      Process (some u) n p = .ok { u with user := some ⟨n, some p⟩ }) ∧
    (∀ flagURL n p, Process flagURL n p = ProcessSwapped flagURL n p) := by
  refine ⟨?_, ?_, ?_, ?_⟩
  · intro u n hn
    rcases hu : u.user with _ | ⟨un, _ | pw⟩ <;>
      simp [Process, hn, hu, userinfoPassword]
  · intro u p hp
    simp [Process, hp]
  · intro u n p hn hp
    rcases hu : u.user with _ | ⟨un, _ | pw⟩ <;>
      simp [Process, hn, hp, hu, userinfoPassword, userinfoUsername]
  · intro flagURL n p
    cases flagURL with
    | none => rfl
    | some u =>
      by_cases hn : n = "" <;> by_cases hp : p = "" <;>
        rcases hu : u.user with _ | ⟨un, _ | pw⟩ <;>
        simp [Process, ProcessSwapped, hn, hp, hu,
          userinfoPassword, userinfoUsername]

/-- C5 witness: both overrides applied to a URL with embedded
credentials. -/
theorem process_override_witness :
    Process (some ⟨"https", some ⟨"eu", some "ep"⟩, "h", "/sdk", "", ""⟩)
        "nu" "np" =
      .ok ⟨"https", some ⟨"nu", some "np"⟩, "h", "/sdk", "", ""⟩ :=
  process_override_spec.2.2.1
    ⟨"https", some ⟨"eu", some "ep"⟩, "h", "/sdk", "", ""⟩ "nu" "np"
    (by decide) (by decide)

/-- C3: session restore returns none (no error) when the persist flag is
false and when the cache file does not exist; any other open error and
any decode error are returned as errors; after a restored, structurally
valid session, a ManagedObjectNotFound SOAP fault from the user-session
query yields none, any other query error is propagated, a nil session
object yields none, and a populated one yields the restored client. -/
theorem loadClient_restore_outcomes :
    (∀ flag env, flag.persist = false → loadClient flag env = (.ok none, false)) ∧
    (∀ flag env, flag.persist = true → env.openResult = .notExist →
      loadClient flag env = (.ok none, false)) ∧
    (∀ flag env e, flag.persist = true → env.openResult = .failure e →
      loadClient flag env = (.error (.cacheErr e), false)) ∧
    (∀ flag env e, flag.persist = true → env.openResult = .opened →
      env.decodeResult = .error e →
      loadClient flag env = (.error (.cacheErr e), false)) ∧
    (∀ flag env c, flag.persist = true → env.openResult = .opened →
      env.decodeResult = .ok c → c.valid = true →
      env.userSession = .error (.soapFault true) →
      loadClient flag env = (.ok none, true)) ∧
    (∀ flag env c e, flag.persist = true → env.openResult = .opened →
      env.decodeResult = .ok c → c.valid = true →
      env.userSession = .error e → e ≠ .soapFault true →
      loadClient flag env = (.error (.sessionErr e), true)) ∧
    (∀ flag env c, flag.persist = true → env.openResult = .opened →
      env.decodeResult = .ok c → c.valid = true →
      env.userSession = .ok none → loadClient flag env = (.ok none, true)) ∧
    (∀ flag env c s, flag.persist = true → env.openResult = .opened →
      env.decodeResult = .ok c → c.valid = true →
      env.userSession = .ok (some s) →
      loadClient flag env = (.ok (some c), true)) := by
  refine ⟨?_, ?_, ?_, ?_, ?_, ?_, ?_, ?_⟩
  · intro flag env h
    simp [loadClient, restoreClient, h]
  · intro flag env h1 h2
    simp [loadClient, restoreClient, h1, h2]
  · intro flag env e h1 h2
    simp [loadClient, restoreClient, h1, h2]
  · intro flag env e h1 h2 h3
    simp [loadClient, restoreClient, h1, h2, h3]
  · intro flag env c h1 h2 h3 h4 h5
    simp [loadClient, restoreClient, h1, h2, h3, h4, h5]
  · intro flag env c e h1 h2 h3 h4 h5 hne
    rcases e with monf | s
    · cases monf
      · simp [loadClient, restoreClient, h1, h2, h3, h4, h5]
      · exact absurd rfl hne
    · simp [loadClient, restoreClient, h1, h2, h3, h4, h5]
  · intro flag env c h1 h2 h3 h4 h5
    simp [loadClient, restoreClient, h1, h2, h3, h4, h5]
  · intro flag env c s h1 h2 h3 h4 h5
    simp [loadClient, restoreClient, h1, h2, h3, h4, h5]

/-- C3 witness: a missing cache file under an enabled persist flag is a
normal "no cached session" outcome. -/
theorem loadClient_restore_witness :
    loadClient baseFlag ⟨.notExist, .ok ⟨true, "6.0"⟩, .ok none⟩ =
      (.ok none, false) :=
  loadClient_restore_outcomes.2.1 baseFlag
    ⟨.notExist, .ok ⟨true, "6.0"⟩, .ok none⟩ rfl rfl

/-- C10: a cache file that exists and decodes into a client failing the
structural validity check makes loadClient return none with no error and
without issuing the remote user-session query. -/
theorem loadClient_invalid_skips_remote :
    ∀ flag env c, flag.persist = true → env.openResult = .opened →
      env.decodeResult = .ok c → c.valid = false →
      loadClient flag env = (.ok none, false) := by
  intro flag env c h1 h2 h3 h4
  simp [loadClient, restoreClient, h1, h2, h3, h4]

/-- C10 witness: a decoded but invalid client under an enabled persist
flag, with a user-session oracle that would have answered. -/
theorem loadClient_invalid_witness :
    loadClient baseFlag
        ⟨.opened, .ok ⟨false, "6.0"⟩, .ok (some ⟨"sess"⟩)⟩ =
      (.ok none, false) :=
  loadClient_invalid_skips_remote baseFlag
    ⟨.opened, .ok ⟨false, "6.0"⟩, .ok (some ⟨"sess"⟩)⟩
    ⟨false, "6.0"⟩ rfl rfl rfl rfl

theorem localTicket_trace_cases (env : AuthEnv) :
    (localTicket env).2 = [.acquireLocalTicket env.osUser] ∨
    ∃ p, (localTicket env).2 = [.acquireLocalTicket env.osUser, .readPasswordFile p] := by
  rcases ht : env.acquireTicket with e | t
  · left
    simp [localTicket, ht]
  · rcases hr : env.readFile t.passwordFilePath with e | pw
    · right
      refine ⟨t.passwordFilePath, ?_⟩
      simp [localTicket, ht, hr]
    · right
      refine ⟨t.passwordFilePath, ?_⟩
      simp [localTicket, ht, hr]

theorem countLoginEvents_localTicket (env : AuthEnv) :
    countLoginEvents (localTicket env).2 = 0 := by
  rcases localTicket_trace_cases env with h | ⟨p, h⟩ <;>
    simp [h, countLoginEvents, isLoginEvent]

theorem countLoginEvents_append (a b : List AuthEvent) :
    countLoginEvents (a ++ b) = countLoginEvents a + countLoginEvents b := by
  simp [countLoginEvents, List.filter_append]

theorem newClientLogin_trace_cases (flag : ClientFlag) (env : AuthEnv)
    (c : VimClient) (it : Bool) (u : Option Userinfo) (tr : List AuthEvent) :
    (newClientLogin flag env c it u tr).2 =
      tr ++ [if it then AuthEvent.loginExtensionByCertificate (userinfoUsername u)
             else AuthEvent.loginByPassword u] ∨
    (newClientLogin flag env c it u tr).2 =
      tr ++ [if it then AuthEvent.loginExtensionByCertificate (userinfoUsername u)
             else AuthEvent.loginByPassword u, AuthEvent.saveSession] := by
  cases it
  · rcases hl : env.login u with e | v
    · left
      simp [newClientLogin, newClientSave, hl]
    · rcases hs : saveClient flag env.fs with e | w <;>
        · right
          simp [newClientLogin, newClientSave, hl, hs]
  · rcases hl : env.loginExtension (userinfoUsername u) with e | v
    · left
      simp [newClientLogin, newClientSave, hl]
    · rcases hs : saveClient flag env.fs with e | w <;>
        · right
          simp [newClientLogin, newClientSave, hl, hs]

theorem countLoginEvents_newClientLogin (flag : ClientFlag) (env : AuthEnv)
    (c : VimClient) (it : Bool) (u : Option Userinfo) (tr : List AuthEvent) :
    countLoginEvents (newClientLogin flag env c it u tr).2 =
      countLoginEvents tr + 1 := by
  rcases newClientLogin_trace_cases flag env c it u tr with h | h <;>
    cases it <;>
    simp [h, countLoginEvents, List.filter_append, isLoginEvent]

theorem newClient_shape (flag : ClientFlag) (env : AuthEnv) :
    (∃ e tr, newClient flag env = (.error e, tr) ∧ countLoginEvents tr = 0) ∨
    (∃ c u tr, newClient flag env = newClientLogin flag env c (flag.cert != "") u tr ∧
      countLoginEvents tr = 0) := by
  rcases hlt : localTicket env with ⟨tres, tr2⟩
  have htr2 : countLoginEvents tr2 = 0 := by
    have h := countLoginEvents_localTicket env
    rw [hlt] at h
    exact h
  by_cases hc : flag.cert = ""
  · rcases hv : env.newVimClient with ev | c
    · exact Or.inl ⟨ev, [.newVimClient], by simp [newClient, hc, hv],
        by simp [countLoginEvents, isLoginEvent]⟩
    · by_cases hu : userinfoUsername flag.url.user = ""
      · rcases tres with elt | ui
        · exact Or.inl ⟨elt, [.newVimClient] ++ tr2,
            by simp [newClient, hc, hv, hu, hlt],
            by rw [countLoginEvents_append, htr2]; simp [countLoginEvents, isLoginEvent]⟩
        · exact Or.inr ⟨c, some ui, [.newVimClient] ++ tr2,
            by simp [newClient, hc, hv, hu, hlt],
            by rw [countLoginEvents_append, htr2]; simp [countLoginEvents, isLoginEvent]⟩
      · exact Or.inr ⟨c, flag.url.user, [.newVimClient],
          by simp [newClient, hc, hv, hu],
          by simp [countLoginEvents, isLoginEvent]⟩
  · rcases hk : env.loadKeyPair with ek | ⟨⟩
    · exact Or.inl ⟨ek, [.loadCertificate flag.cert flag.key],
        by simp [newClient, hc, hk],
        by simp [countLoginEvents, isLoginEvent]⟩
    · rcases hv : env.newVimClient with ev | c
      · exact Or.inl ⟨ev, [.loadCertificate flag.cert flag.key, .newVimClient],
          by simp [newClient, hc, hk, hv],
          by simp [countLoginEvents, isLoginEvent]⟩
      · by_cases hu : userinfoUsername flag.url.user = ""
        · rcases tres with elt | ui
          · exact Or.inl ⟨elt,
              [.loadCertificate flag.cert flag.key, .newVimClient] ++ tr2,
              by simp [newClient, hc, hk, hv, hu, hlt],
              by rw [countLoginEvents_append, htr2]; simp [countLoginEvents, isLoginEvent]⟩
          · exact Or.inr ⟨c, some ui,
              [.loadCertificate flag.cert flag.key, .newVimClient] ++ tr2,
              by simp [newClient, hc, hk, hv, hu, hlt],
              by rw [countLoginEvents_append, htr2]; simp [countLoginEvents, isLoginEvent]⟩
        · exact Or.inr ⟨c, flag.url.user,
            [.loadCertificate flag.cert flag.key, .newVimClient],
            by simp [newClient, hc, hk, hv, hu],
            by simp [countLoginEvents, isLoginEvent]⟩

theorem newClientSave_ok (flag : ClientFlag) (env : AuthEnv) (c c' : VimClient)
    (tr : List AuthEvent) (h : (newClientSave flag env c tr).1 = .ok c') :
    saveClient flag env.fs = .ok () := by
  rcases hs : saveClient flag env.fs with e | u
  · unfold newClientSave at h
    rw [hs] at h
    simp at h
  · rfl

theorem newClientLogin_ok (flag : ClientFlag) (env : AuthEnv) (c c' : VimClient)
    (it : Bool) (u : Option Userinfo) (tr : List AuthEvent)
    (h : (newClientLogin flag env c it u tr).1 = .ok c') :
    saveClient flag env.fs = .ok () := by
  unfold newClientLogin at h
  cases it
  · rcases hl : env.login u with e | v
    · rw [hl] at h
      simp at h
    · rw [hl] at h
      exact newClientSave_ok flag env c c' _ h
  · rcases hl : env.loginExtension (userinfoUsername u) with e | v
    · rw [hl] at h
      simp at h
    · rw [hl] at h
      exact newClientSave_ok flag env c c' _ h

/-- C2 counterexample: with a certificate configured and a username-free
URL (and every external call succeeding), the fresh-login run both
acquires a local ticket (a step of the local-ticket flow) and performs
the certificate login, so the flows are not mutually exclusive as
claimed. -/
theorem newClient_cert_and_ticket_mix :
    flagCertNoUser.cert ≠ "" ∧
    AuthEvent.acquireLocalTicket "root" ∈ (newClient flagCertNoUser allOkAuthEnv).2 ∧
    AuthEvent.loginExtensionByCertificate "root" ∈
      (newClient flagCertNoUser allOkAuthEnv).2 := by
  refine ⟨by decide, by decide, by decide⟩

/-- C2 (amended): every fresh login performs at most one login call,
and its kind is chosen first-match by the certificate setting
(LoginExtensionByCertificate when a certificate path is configured,
Login otherwise); the local-ticket acquisition (AcquireLocalTicket and
the password-file read) runs exactly when the resolved URL carries no
username — including inside the certificate flow, where the acquired
ticket supplies the username for the certificate login.  The second
conjunct pins the exact call sequence when every external call
succeeds. -/
theorem newClient_flow_selection :
    (∀ (flag : ClientFlag) (env : AuthEnv),
      countLoginEvents (newClient flag env).2 ≤ 1) ∧
    (∀ (flag : ClientFlag) (env : AuthEnv) (c : VimClient) (t : Ticket) (pw : String),
      env.loadKeyPair = .ok () → env.newVimClient = .ok c →
      env.acquireTicket = .ok t → env.readFile t.passwordFilePath = .ok pw →
      (∀ n, env.loginExtension n = .ok ()) → (∀ u, env.login u = .ok ()) →
      saveClient flag env.fs = .ok () →
      newClient flag env =
        (.ok c,
          (if flag.cert = "" then [] else [AuthEvent.loadCertificate flag.cert flag.key]) ++
          [AuthEvent.newVimClient] ++
          (if userinfoUsername flag.url.user = "" then
              [AuthEvent.acquireLocalTicket env.osUser,
                AuthEvent.readPasswordFile t.passwordFilePath]
            else []) ++
          [if flag.cert = "" then
              AuthEvent.loginByPassword
                (if userinfoUsername flag.url.user = "" then some ⟨t.userName, some pw⟩
                 else flag.url.user)
            else
              AuthEvent.loginExtensionByCertificate
                (if userinfoUsername flag.url.user = "" then t.userName
                 else userinfoUsername flag.url.user)] ++
          [AuthEvent.saveSession])) := by
  constructor
  · intro flag env
    rcases newClient_shape flag env with ⟨e, tr, heq, hcount⟩ | ⟨c, u, tr, heq, hcount⟩
    · rw [heq]
      simp [hcount]
    · rw [heq, countLoginEvents_newClientLogin, hcount]
  · intro flag env c t pw hk hv ht hr hx hl hs
    by_cases hc : flag.cert = "" <;> by_cases hu : userinfoUsername flag.url.user = "" <;>
      simp_all [newClient, localTicket, newClientLogin, newClientSave, userinfoUsername]

/-- C2 witness: the flow characterization applied to the concrete
certificate-plus-no-username configuration. -/
theorem newClient_flow_witness :
    newClient flagCertNoUser allOkAuthEnv =
      (.ok ⟨true, "6.0"⟩,
        [.loadCertificate "cert.pem" "key.pem", .newVimClient,
          .acquireLocalTicket "root", .readPasswordFile "/var/ticket/pw",
          .loginExtensionByCertificate "root", .saveSession]) :=
  newClient_flow_selection.2 flagCertNoUser allOkAuthEnv ⟨true, "6.0"⟩
    ⟨"root", "/var/ticket/pw"⟩ "onetimepw" rfl rfl rfl rfl
    (fun _ => rfl) (fun _ => rfl) rfl

/-- C8: persisting is a no-op success when the persist flag is false;
a fresh login only returns a client when the save step succeeded; and
when the flow reaches a failing save (password flow shown), newClient
returns exactly the save error instead of the unsaved client. -/
theorem saveClient_fatal_spec :
    (∀ flag fs, flag.persist = false → saveClient flag fs = .ok ()) ∧
    (∀ (flag : ClientFlag) (env : AuthEnv) (c' : VimClient),
      (newClient flag env).1 = .ok c' → saveClient flag env.fs = .ok ()) ∧
    (∀ (flag : ClientFlag) (env : AuthEnv) (c : VimClient) (e : String),
      flag.cert = "" → userinfoUsername flag.url.user ≠ "" →
      env.newVimClient = .ok c → env.login flag.url.user = .ok () →
      saveClient flag env.fs = .error e →
      newClient flag env =
        (.error e, [.newVimClient, .loginByPassword flag.url.user, .saveSession])) := by
  refine ⟨?_, ?_, ?_⟩
  · intro flag fs h
    simp [saveClient, h]
  · intro flag env c' h
    rcases newClient_shape flag env with ⟨e, tr, heq, _⟩ | ⟨c, u, tr, heq, _⟩
    · rw [heq] at h
      simp at h
    · rw [heq] at h
      exact newClientLogin_ok flag env c c' _ u tr h
  · intro flag env c e hc hu hv hl hs
    simp [newClient, newClientLogin, newClientSave, hc, hu, hv, hl, hs]

/-- C8 witness: a disabled persist flag makes saveClient succeed even
when every filesystem operation would fail. -/
theorem saveClient_fatal_witness :
    saveClient flagCertNoUser ⟨.error "mkdir", .error "open", .error "enc"⟩ =
      .ok () :=
  saveClient_fatal_spec.1 flagCertNoUser
    ⟨.error "mkdir", .error "open", .error "enc"⟩ rfl

theorem host_mid_inj (x y T S : List Char) (C1 C2 : Prop) [Decidable C1]
    [Decidable C2] (hc1 : x = [] → ¬C1) (hc2 : y = [] → ¬C2)
    (hc12 : x ≠ [] → y ≠ [] → (C1 ↔ C2))
    (h : x ++ ((if C1 then S else []) ++ T) = y ++ ((if C2 then S else []) ++ T)) :
    x = y := by
  by_cases hx : x = [] <;> by_cases hy : y = []
  · rw [hx, hy]
  · exfalso
    rw [hx, if_neg (hc1 hx)] at h
    have hl := congrArg List.length h
    simp [List.length_append] at hl
    exact hy (List.length_eq_zero.mp (by omega))
  · exfalso
    rw [hy, if_neg (hc2 hy)] at h
    have hl := congrArg List.length h
    simp [List.length_append] at hl
    exact hx (List.length_eq_zero.mp (by omega))
  · have hiff := hc12 hx hy
    rw [if_congr hiff rfl rfl] at h
    have hl := congrArg List.length h
    simp [List.length_append] at hl
    exact (List.append_inj h (by omega)).1

theorem str_cancel_left (a b c : String) (h : a ++ b = a ++ c) : b = c := by
  have hd := congrArg String.data h
  simp only [String.data_append] at hd
  have hbc := List.append_cancel_left hd
  cases b
  cases c
  exact congrArg String.mk hbc

theorem string_eq_empty_iff (s : String) : s = "" ↔ s.data = [] := by
  cases s with
  | mk l =>
    constructor
    · intro h
      rw [h]
    · intro h
      simp only at h
      rw [h]

theorem hostIfNe (h : String) : (if h ≠ "" then h else "") = h := by
  by_cases hh : h = "" <;> simp [hh]

theorem host_mid_inj_str (x y T : String) (C1 C2 : Prop) [Decidable C1]
    [Decidable C2] (hc1 : x = "" → ¬C1) (hc2 : y = "" → ¬C2)
    (hc12 : x ≠ "" → y ≠ "" → (C1 ↔ C2))
    (h : x ++ ((if C1 then "/" else "") ++ T) =
         y ++ ((if C2 then "/" else "") ++ T)) :
    x = y := by
  have hd := congrArg String.data h
  simp only [String.data_append, apply_ite String.data] at hd
  have hxy := host_mid_inj x.data y.data T.data (['/']) C1 C2
    (fun hx => hc1 ((string_eq_empty_iff x).mpr hx))
    (fun hy => hc2 ((string_eq_empty_iff y).mpr hy))
    (fun hx hy => hc12 (fun hx2 => hx ((string_eq_empty_iff x).mp hx2))
      (fun hy2 => hy ((string_eq_empty_iff y).mp hy2)))
    hd
  cases x
  cases y
  exact congrArg String.mk hxy

set_option maxHeartbeats 1000000 in
theorem sessionKey_host_inj (u1 u2 : URL) (b : Bool)
    (hs : u1.scheme = u2.scheme)
    (hn : userinfoUsername u1.user = userinfoUsername u2.user)
    (hp : u1.path = u2.path) (hq : u1.rawQuery = u2.rawQuery)
    (hf : u1.fragment = u2.fragment) (hh : u1.host ≠ u2.host) :
    sessionKey u1 b ≠ sessionKey u2 b := by
  rcases u1 with ⟨s1, us1, h1, p1, q1, f1⟩
  rcases u2 with ⟨s2, us2, h2, p2, q2, f2⟩
  simp only at hs hn hp hq hf hh
  subst hs
  subst hp
  subst hq
  subst hf
  intro heq
  simp only [sessionKey, URLWithoutPassword, URL.render, Userinfo.render,
    Option.isSome_some, or_true, eq_self_iff_true, ite_true, hostIfNe,
    String.append_assoc] at heq
  rw [hn] at heq
  have e1 := str_cancel_left _ _ _ heq
  have e2 := str_cancel_left _ _ _ e1
  have e3 := str_cancel_left _ _ _ e2
  have e4 := str_cancel_left _ _ _ e3
  refine hh (host_mid_inj_str h1 h2 _ _ _ ?_ ?_ ?_ e4)
  · intro hx
    simp [hx]
  · intro hy
    simp [hy]
  · intro hx hy
    simp [hx, hy]

theorem sessionKey_insecure_inj (u : URL) :
    sessionKey u true ≠ sessionKey u false := by
  intro heq
  simp only [sessionKey, String.append_assoc] at heq
  have e1 := str_cancel_left _ _ _ heq
  have e2 := str_cancel_left _ _ _ e1
  exact absurd e2 (by decide)


theorem str_cancel_right (a b c : String) (h : a ++ c = b ++ c) : a = b := by
  have hd := congrArg String.data h
  simp only [String.data_append] at hd
  have hab := List.append_cancel_right hd
  cases a
  cases b
  exact congrArg String.mk hab

theorem opt_part_inj (mark a b : String) (hm : mark ≠ "")
    (h : (if a ≠ "" then mark ++ a else "") = (if b ≠ "" then mark ++ b else "")) :
    a = b := by
  by_cases ha : a = "" <;> by_cases hb : b = ""
  · rw [ha, hb]
  · exfalso
    rw [if_neg (by simp [ha]), if_pos hb] at h
    have hd := congrArg String.data h
    have h0 : ("" : String).data = ([] : List Char) := rfl
    rw [h0, String.data_append] at hd
    rcases List.append_eq_nil.mp hd.symm with ⟨hmk, _⟩
    exact hm ((string_eq_empty_iff mark).mpr hmk)
  · exfalso
    rw [if_pos ha, if_neg (by simp [hb])] at h
    have hd := congrArg String.data h
    have h0 : ("" : String).data = ([] : List Char) := rfl
    rw [h0, String.data_append] at hd
    rcases List.append_eq_nil.mp hd with ⟨hmk, _⟩
    exact hm ((string_eq_empty_iff mark).mpr hmk)
  · rw [if_pos ha, if_pos hb] at h
    exact str_cancel_left _ _ _ h

set_option maxHeartbeats 1000000 in
theorem sessionKey_username_inj (u1 u2 : URL) (b : Bool)
    (hs : u1.scheme = u2.scheme) (hh : u1.host = u2.host)
    (hp : u1.path = u2.path) (hq : u1.rawQuery = u2.rawQuery)
    (hf : u1.fragment = u2.fragment)
    (hn : userinfoUsername u1.user ≠ userinfoUsername u2.user) :
    sessionKey u1 b ≠ sessionKey u2 b := by
  rcases u1 with ⟨s1, us1, h1, p1, q1, f1⟩
  rcases u2 with ⟨s2, us2, h2, p2, q2, f2⟩
  simp only at hs hh hp hq hf hn
  subst hs
  subst hh
  subst hp
  subst hq
  subst hf
  intro heq
  simp only [sessionKey, URLWithoutPassword, URL.render, Userinfo.render,
    Option.isSome_some, or_true, eq_self_iff_true, ite_true, hostIfNe,
    String.append_assoc] at heq
  have e1 := str_cancel_left _ _ _ heq
  have e2 := str_cancel_left _ _ _ e1
  exact hn (str_cancel_right _ _ _ e2)

set_option maxHeartbeats 1000000 in
theorem sessionKey_query_inj (u1 u2 : URL) (b : Bool)
    (hs : u1.scheme = u2.scheme)
    (hn : userinfoUsername u1.user = userinfoUsername u2.user)
    (hh : u1.host = u2.host) (hp : u1.path = u2.path)
    (hf : u1.fragment = u2.fragment) (hq : u1.rawQuery ≠ u2.rawQuery) :
    sessionKey u1 b ≠ sessionKey u2 b := by
  rcases u1 with ⟨s1, us1, h1, p1, q1, f1⟩
  rcases u2 with ⟨s2, us2, h2, p2, q2, f2⟩
  simp only at hs hn hh hp hf hq
  subst hs
  subst hh
  subst hp
  subst hf
  intro heq
  simp only [sessionKey, URLWithoutPassword, URL.render, Userinfo.render,
    Option.isSome_some, or_true, eq_self_iff_true, ite_true, hostIfNe,
    String.append_assoc] at heq
  rw [hn] at heq
  have e1 := str_cancel_left _ _ _ heq
  have e2 := str_cancel_left _ _ _ e1
  have e3 := str_cancel_left _ _ _ e2
  have e4 := str_cancel_left _ _ _ e3
  have e5 := str_cancel_left _ _ _ e4
  have e6 := str_cancel_left _ _ _ e5
  have e7 := str_cancel_left _ _ _ e6
  exact hq (opt_part_inj "?" q1 q2 (by decide) (str_cancel_right _ _ _ e7))

set_option maxHeartbeats 1000000 in
theorem sessionKey_fragment_inj (u1 u2 : URL) (b : Bool)
    (hs : u1.scheme = u2.scheme)
    (hn : userinfoUsername u1.user = userinfoUsername u2.user)
    (hh : u1.host = u2.host) (hp : u1.path = u2.path)
    (hq : u1.rawQuery = u2.rawQuery) (hf : u1.fragment ≠ u2.fragment) :
    sessionKey u1 b ≠ sessionKey u2 b := by
  rcases u1 with ⟨s1, us1, h1, p1, q1, f1⟩
  rcases u2 with ⟨s2, us2, h2, p2, q2, f2⟩
  simp only at hs hn hh hp hq hf
  subst hs
  subst hh
  subst hp
  subst hq
  intro heq
  simp only [sessionKey, URLWithoutPassword, URL.render, Userinfo.render,
    Option.isSome_some, or_true, eq_self_iff_true, ite_true, hostIfNe,
    String.append_assoc] at heq
  rw [hn] at heq
  have e1 := str_cancel_left _ _ _ heq
  have e2 := str_cancel_left _ _ _ e1
  have e3 := str_cancel_left _ _ _ e2
  have e4 := str_cancel_left _ _ _ e3
  have e5 := str_cancel_left _ _ _ e4
  have e6 := str_cancel_left _ _ _ e5
  have e7 := str_cancel_left _ _ _ e6
  have e8 := str_cancel_left _ _ _ e7
  exact hf (opt_part_inj "#" f1 f2 (by decide) (str_cancel_right _ _ _ e8))

set_option maxRecDepth 10000 in
/-- C1 counterexample: the session-cache filename is NOT a function of
only (scheme, host, path, insecure flag).  Two configurations agreeing
on all four but differing only in the URL query, two differing only in
the URL username, and two differing only in the URL fragment, yield
different filenames, because the hashed key is the full
credential-stripped URL string, which retains the username, query and
fragment. -/
theorem sessionFile_credential_query_dependence :
    (flagQ1.url.scheme = flagQ2.url.scheme ∧ flagQ1.url.host = flagQ2.url.host ∧
      flagQ1.url.path = flagQ2.url.path ∧ flagQ1.url.user = flagQ2.url.user ∧
      flagQ1.insecure = flagQ2.insecure ∧
      sessionFile "/home/user" flagQ1 ≠ sessionFile "/home/user" flagQ2) ∧
    (flagU1.url.scheme = flagU2.url.scheme ∧ flagU1.url.host = flagU2.url.host ∧
      flagU1.url.path = flagU2.url.path ∧ flagU1.url.rawQuery = flagU2.url.rawQuery ∧
      flagU1.url.fragment = flagU2.url.fragment ∧ flagU1.insecure = flagU2.insecure ∧
      (∃ pw1 pw2, flagU1.url.user = some ⟨"alice", pw1⟩ ∧
        flagU2.url.user = some ⟨"bob", pw2⟩) ∧
      sessionFile "/home/user" flagU1 ≠ sessionFile "/home/user" flagU2) ∧
    (flagF1.url.scheme = flagF2.url.scheme ∧ flagF1.url.host = flagF2.url.host ∧
      flagF1.url.path = flagF2.url.path ∧ flagF1.url.user = flagF2.url.user ∧
      flagF1.url.rawQuery = flagF2.url.rawQuery ∧
      flagF1.insecure = flagF2.insecure ∧
      sessionFile "/home/user" flagF1 ≠ sessionFile "/home/user" flagF2) := by
  refine ⟨⟨rfl, rfl, rfl, rfl, rfl, ?_⟩,
    ⟨rfl, rfl, rfl, rfl, rfl, rfl, ⟨some "pw", some "pw", rfl, rfl⟩, ?_⟩,
    ⟨rfl, rfl, rfl, rfl, rfl, rfl, ?_⟩⟩ <;>
    decide

set_option maxRecDepth 10000 in
/-- C1 (amended): the session-cache filename is a pure function of the
credential-stripped URL (scheme, username, host, path, query, fragment)
and the insecure flag; configurations differing only in the password
map to the same filename; configurations differing in exactly one of
host, username, query or fragment, or in the insecure flag, produce
different SHA-1 input keys — hence different filenames unless SHA-1
collides, verified concretely on sample configurations differing only
in host and only in the insecure flag. -/
theorem sessionFile_key_characterization :
    (∀ home (flag1 flag2 : ClientFlag),
      URLWithoutPassword flag1.url = URLWithoutPassword flag2.url →
      flag1.insecure = flag2.insecure →
      sessionFile home flag1 = sessionFile home flag2) ∧
    (∀ home (flag : ClientFlag) (n : String) (pw1 pw2 : Option String),
      sessionFile home { flag with url := { flag.url with user := some ⟨n, pw1⟩ } } =
        sessionFile home { flag with url := { flag.url with user := some ⟨n, pw2⟩ } }) ∧
    (∀ (u1 u2 : URL) (b : Bool), u1.scheme = u2.scheme →
      userinfoUsername u1.user = userinfoUsername u2.user → u1.path = u2.path →
      u1.rawQuery = u2.rawQuery → u1.fragment = u2.fragment → u1.host ≠ u2.host →
      sessionKey u1 b ≠ sessionKey u2 b) ∧
    (∀ (u1 u2 : URL) (b : Bool), u1.scheme = u2.scheme → u1.host = u2.host →
      u1.path = u2.path → u1.rawQuery = u2.rawQuery → u1.fragment = u2.fragment →
      userinfoUsername u1.user ≠ userinfoUsername u2.user →
      sessionKey u1 b ≠ sessionKey u2 b) ∧
    (∀ (u1 u2 : URL) (b : Bool), u1.scheme = u2.scheme →
      userinfoUsername u1.user = userinfoUsername u2.user → u1.host = u2.host →
      u1.path = u2.path → u1.fragment = u2.fragment → u1.rawQuery ≠ u2.rawQuery →
      sessionKey u1 b ≠ sessionKey u2 b) ∧
    (∀ (u1 u2 : URL) (b : Bool), u1.scheme = u2.scheme →
      userinfoUsername u1.user = userinfoUsername u2.user → u1.host = u2.host →
      u1.path = u2.path → u1.rawQuery = u2.rawQuery → u1.fragment ≠ u2.fragment →
      sessionKey u1 b ≠ sessionKey u2 b) ∧
    (∀ u : URL, sessionKey u true ≠ sessionKey u false) ∧
    sessionFile "/home/user" flagH1 ≠ sessionFile "/home/user" flagH2 ∧
    sessionFile "/home/user" flagI1 ≠ sessionFile "/home/user" flagI2 := by
  refine ⟨?_, ?_, sessionKey_host_inj, sessionKey_username_inj,
    sessionKey_query_inj, sessionKey_fragment_inj, sessionKey_insecure_inj,
    by decide, by decide⟩
  · intro home flag1 flag2 h1 h2
    simp [sessionFile, sessionFileName, sessionKey, h1, h2]
  · intro home flag n pw1 pw2
    have hwp : URLWithoutPassword { flag.url with user := some ⟨n, pw1⟩ } =
        URLWithoutPassword { flag.url with user := some ⟨n, pw2⟩ } := by
      simp [URLWithoutPassword, userinfoUsername]
    simp [sessionFile, sessionFileName, sessionKey, hwp]

/-- C1 witness: two configurations differing only in the embedded
password share a session file. -/
theorem sessionFile_key_witness :
    sessionFile "/home/user" baseFlag =
      sessionFile "/home/user"
        { baseFlag with url := { baseFlag.url with user := some ⟨"u", some "other"⟩ } } :=
  sessionFile_key_characterization.1 "/home/user" baseFlag
    { baseFlag with url := { baseFlag.url with user := some ⟨"u", some "other"⟩ } }
    rfl rfl
